import Mathlib

/-!
Verification of the ConfigMap cleaning tool (`src/kubernetes/clean.rs`).

The development shallowly embeds the data model and the pure logic of
`clean_config_maps` and its helpers.  Kubernetes API objects become Lean
structures with `Option` fields exactly where the `k8s_openapi` types have
`Option` fields; `HashSet<String>` becomes `Finset String`; Rust
`Result<_, E>` becomes `Except Err _`.  A Rust `unwrap()` panic is modelled
as the `Failure.panicked` outcome; list-call and delete-call effects are
passed in as explicit function arguments, and the delete pass records the
names for which a delete call was actually issued.
-/

namespace Kubeclean

/-- Errors returned by the external cluster client (`kube::Error` etc.);
only their identity matters to the logic, so they are plain strings. -/
abbrev Err := String

/-- `ConfigMapKeySelector`: the `config_map_key_ref` target of an env var;
only the optional `name` field is read by the code. -/
structure ConfigMapKeySelector where
  name : Option String
deriving DecidableEq, Repr

/-- `EnvVarSource`: the `value_from` of an env var; only
`config_map_key_ref` is read by the code. -/
structure EnvVarSource where
  config_map_key_ref : Option ConfigMapKeySelector
deriving DecidableEq, Repr

/-- `EnvVar`: a container environment variable definition. -/
structure EnvVar where
  name : String
  value_from : Option EnvVarSource
deriving DecidableEq, Repr

/-- `ConfigMapEnvSource`: the `config_map_ref` of an `env_from` source. -/
structure ConfigMapEnvSource where
  name : Option String
deriving DecidableEq, Repr

/-- `EnvFromSource`: a bulk environment source of a container; only
`config_map_ref` is read by the code. -/
structure EnvFromSource where
  config_map_ref : Option ConfigMapEnvSource
deriving DecidableEq, Repr

/-- `Container`: name, optional env list, optional env_from list
(the only fields `clean.rs` reads). -/
structure Container where
  name : String
  env : Option (List EnvVar)
  env_from : Option (List EnvFromSource)
deriving DecidableEq, Repr

/-- `ConfigMapVolumeSource`: the direct `config_map` source of a volume. -/
structure ConfigMapVolumeSource where
  name : Option String
deriving DecidableEq, Repr

/-- `ConfigMapProjection`: the `config_map` source of a volume projection. -/
structure ConfigMapProjection where
  name : Option String
deriving DecidableEq, Repr

/-- `VolumeProjection`: one source of a projected volume; only
`config_map` is read by the code. -/
structure VolumeProjection where
  config_map : Option ConfigMapProjection
deriving DecidableEq, Repr

/-- `ProjectedVolumeSource`: the `projected` field of a volume, with its
optional `sources` list. -/
structure ProjectedVolumeSource where
  sources : Option (List VolumeProjection)
deriving DecidableEq, Repr

/-- `Volume`: name, optional direct ConfigMap source, optional projected
source (the only fields `clean.rs` reads). -/
structure Volume where
  name : String
  config_map : Option ConfigMapVolumeSource
  projected : Option ProjectedVolumeSource
deriving DecidableEq, Repr

/-- `PodSpec`: the embedded pod template.  `clean.rs` reads only
`containers` and `volumes`; `init_containers` and `ephemeral_containers`
are present in the API type but never traversed by the extraction code. -/
structure PodSpec where
  containers : List Container
  init_containers : Option (List Container)
  ephemeral_containers : Option (List Container)
  volumes : Option (List Volume)
deriving DecidableEq, Repr

/-- `OwnerReference`: an entry of `metadata.owner_references`; its content
is never read, only the presence of the list matters. -/
structure OwnerReference where
  name : String
deriving DecidableEq, Repr

/-- `ObjectMeta`: the metadata fields read by the code (`name` via
`name_any`, `owner_references` via the ownerless filter). -/
structure ObjectMeta where
  name : Option String
  owner_references : Option (List OwnerReference)
deriving DecidableEq, Repr

/-- `ResourceExt::name_any`: the object's name, or the empty string when
absent. -/
def name_any (m : ObjectMeta) : String :=
  m.name.getD ""

/-- `ConfigMap`: only its metadata (name) matters to the logic. -/
structure ConfigMap where
  metadata : ObjectMeta
deriving DecidableEq, Repr

/-- `Pod`: metadata plus an optional pod spec. -/
structure Pod where
  metadata : ObjectMeta
  spec : Option PodSpec
deriving DecidableEq, Repr

/-- `PodTemplateSpec`: the pod template embedded in workload specs, with
its optional `spec`. -/
structure PodTemplateSpec where
  spec : Option PodSpec
deriving DecidableEq, Repr

/-- `DeploymentSpec`: `template` is a required field in the API type. -/
structure DeploymentSpec where
  template : PodTemplateSpec
deriving DecidableEq, Repr

/-- `Deployment`: metadata plus optional spec. -/
structure Deployment where
  metadata : ObjectMeta
  spec : Option DeploymentSpec
deriving DecidableEq, Repr

/-- `ReplicaSetSpec`: in the API type, `template` is itself optional. -/
structure ReplicaSetSpec where
  template : Option PodTemplateSpec
deriving DecidableEq, Repr

/-- `ReplicaSet`: metadata plus optional spec. -/
structure ReplicaSet where
  metadata : ObjectMeta
  spec : Option ReplicaSetSpec
deriving DecidableEq, Repr

/-- `StatefulSetSpec`: `template` is required. -/
structure StatefulSetSpec where
  template : PodTemplateSpec
deriving DecidableEq, Repr

/-- `StatefulSet`: metadata plus optional spec. -/
structure StatefulSet where
  metadata : ObjectMeta
  spec : Option StatefulSetSpec
deriving DecidableEq, Repr

/-- `DaemonSetSpec`: `template` is required. -/
structure DaemonSetSpec where
  template : PodTemplateSpec
deriving DecidableEq, Repr

/-- `DaemonSet`: metadata plus optional spec. -/
structure DaemonSet where
  metadata : ObjectMeta
  spec : Option DaemonSetSpec
deriving DecidableEq, Repr

/-- `JobSpec`: `template` is required. -/
structure JobSpec where
  template : PodTemplateSpec
deriving DecidableEq, Repr

/-- `Job`: metadata plus optional spec. -/
structure Job where
  metadata : ObjectMeta
  spec : Option JobSpec
deriving DecidableEq, Repr

/-- `JobTemplateSpec`: the `job_template` of a CronJob, with optional
`spec`. -/
structure JobTemplateSpec where
  spec : Option JobSpec
deriving DecidableEq, Repr

/-- `CronJobSpec`: `job_template` is required. -/
structure CronJobSpec where
  job_template : JobTemplateSpec
deriving DecidableEq, Repr

/-- `CronJob`: metadata plus optional spec. -/
structure CronJob where
  metadata : ObjectMeta
  spec : Option CronJobSpec
deriving DecidableEq, Repr

/-- The `HasPodSpec` trait.  The Rust implementations navigate to the
embedded pod spec with `unwrap()` at every optional step; here `pod_spec`
returns `none` exactly where the Rust code would panic. -/
class HasPodSpec (K : Type) where
  pod_spec : K → Option PodSpec

instance : HasPodSpec Pod where
  pod_spec p := p.spec

instance : HasPodSpec Deployment where
  pod_spec d := d.spec.bind fun s => s.template.spec

instance : HasPodSpec ReplicaSet where
  pod_spec r := r.spec.bind fun s => s.template.bind fun t => t.spec

instance : HasPodSpec StatefulSet where
  pod_spec s := s.spec.bind fun sp => sp.template.spec

instance : HasPodSpec DaemonSet where
  pod_spec d := d.spec.bind fun s => s.template.spec

instance : HasPodSpec CronJob where
  pod_spec c :=
    c.spec.bind fun s => s.job_template.spec.bind fun js => js.template.spec

instance : HasPodSpec Job where
  pod_spec j := j.spec.bind fun s => s.template.spec

/-- `extract_config_maps_from_env_vars`: for every container, for every
env var whose `value_from.config_map_key_ref.name` chain is present, emit
the referenced ConfigMap name.  Only `pod_spec.containers` is traversed. -/
def extract_config_maps_from_env_vars (pod_spec : PodSpec) : Finset String :=
  ((pod_spec.containers.filterMap fun container =>
      container.env.map fun env => (container.name, env))
    |>.flatMap (fun x => x.2.map fun env_var => (x.1, env_var))
    |>.filterMap fun x =>
      ((x.2.value_from.bind fun v => v.config_map_key_ref).bind fun r => r.name).map
        fun config_map => (x.1, x.2.name, config_map))
    |>.map (fun x => x.2.2) |>.toFinset

/-- `extract_config_maps_from_env_from`: for every container, for every
`env_from` source whose `config_map_ref.name` chain is present, emit the
referenced ConfigMap name.  Only `pod_spec.containers` is traversed. -/
def extract_config_maps_from_env_from (pod_spec : PodSpec) : Finset String :=
  ((pod_spec.containers.filterMap fun container =>
      container.env_from.map fun sources => (container.name, sources))
    |>.flatMap (fun x => x.2.map fun source => (x.1, source))
    |>.filterMap fun x =>
      ((x.2.config_map_ref.bind fun r => r.name).map
        fun config_map => (x.1, config_map)))
    |>.map (fun x => x.2) |>.toFinset

/-- `extract_config_maps_from_volumes`: for every volume whose
`config_map.name` chain is present, emit the referenced ConfigMap name;
an absent volume list contributes the empty set (`map_or`). -/
def extract_config_maps_from_volumes (pod_spec : PodSpec) : Finset String :=
  pod_spec.volumes.elim ∅ fun volumes =>
    (volumes.filterMap fun volume =>
      (volume.config_map.bind fun source => source.name).map
        fun config_map => (volume.name, config_map))
      |>.map (fun x => x.2) |>.toFinset

/-- `extract_config_maps_from_projected_volumes`: for every volume with a
`projected.sources` list, for every projection whose `config_map.name`
chain is present, emit the referenced ConfigMap name. -/
def extract_config_maps_from_projected_volumes (pod_spec : PodSpec) : Finset String :=
  pod_spec.volumes.elim ∅ fun volumes =>
    ((volumes.filterMap fun volume =>
        (volume.projected.bind fun p => p.sources).map
          fun sources => (volume.name, sources))
      |>.flatMap fun x =>
        x.2.filterMap fun projection =>
          (projection.config_map.bind fun c => c.name).map
            fun config_map => (x.1, config_map))
      |>.map (fun x => x.2) |>.toFinset

/-- `extract_config_maps_from`: the four sub-extractor results chained
into one `HashSet`, i.e. their union. -/
def extract_config_maps_from (pod_spec : PodSpec) : Finset String :=
  extract_config_maps_from_env_vars pod_spec ∪
    extract_config_maps_from_env_from pod_spec ∪
    extract_config_maps_from_volumes pod_spec ∪
    extract_config_maps_from_projected_volumes pod_spec

/-- `get_config_map_references`: flat-maps `extract_config_maps_from`
over `resource.pod_spec()` for every fetched resource.  The Rust call
panics (via the `unwrap()`s inside `pod_spec`) as soon as any resource
lacks its pod spec; `none` models that panic. -/
def get_config_map_references {K : Type} [HasPodSpec K]
    (resources : List K) : Option (Finset String) :=
  resources.foldr
    (fun resource acc =>
      match HasPodSpec.pod_spec resource, acc with
      | some ps, some s => some (extract_config_maps_from ps ∪ s)
      | _, _ => none)
    (some ∅)

/-- The `EXEMPTIONS` constant of `clean.rs`. -/
def EXEMPTIONS : List String := ["kube-root-ca.crt"]

/-- Outcome of a run: a fetch error propagated with `?`, or a Rust panic
(`unwrap()` on an absent value). -/
inductive Failure where
  | fetch (e : Err)
  | panicked
deriving DecidableEq, Repr

/-- `get_resources`: awaits the external list call and propagates its
error with `?`; on success returns the items unchanged (the log line has
no effect on the result). -/
def get_resources {K : Type} (listed : Except Err (List K)) : Except Err (List K) :=
  listed

/-- `get_ownerless_resources`: `get_resources` followed by the filter
keeping resources whose `metadata.owner_references` field is `None`. -/
def get_ownerless_resources {K : Type} (metadata : K → ObjectMeta)
    (listed : Except Err (List K)) : Except Err (List K) := do
  let resources ← get_resources listed
  pure (resources.filter fun resource => (metadata resource).owner_references.isNone)

/-- `delete_resources` of `clean.rs`: deletes each target sequentially and
propagates the first error with `?`, so targets after a failed one are not
attempted.  The first component records the names for which a delete call
was issued; the second is the returned `Result`. -/
def delete_resources (delete : String → Except Err Unit) :
    List String → List String × Except Err Unit
  | [] => ([], Except.ok ())
  | target :: targets =>
    match delete target with
    | Except.error e => ([target], Except.error e)
    | Except.ok _ =>
      let rest := delete_resources delete targets
      (target :: rest.1, rest.2)

/-- The second `.filter` closure of `clean_config_maps` (lines 135-157):
for each name surviving the exemption filter it calls
`Regex::new(regexp).unwrap()` and keeps the name according to whether the
regex finds a match, inverted under `inverse_filter`.  `compile` stands
for `Regex::new` (`none` = the pattern does not compile); because the
regex is compiled inside the per-item closure, an invalid pattern panics
only when at least one name reaches this stage, and the panic happens
during per-item processing. -/
def regex_filter_step (compile : String → Option (String → Bool))
    (filter : Option String) (inverse_filter : Bool)
    (names : Finset String) : Except Failure (Finset String) :=
  match filter with
  | none => Except.ok names
  | some regexp =>
    if names = ∅ then Except.ok names
    else
      match compile regexp with
      | none => Except.error Failure.panicked
      | some is_matching =>
        Except.ok (names.filter fun config_map =>
          (if inverse_filter then !(is_matching config_map)
           else is_matching config_map) = true)

/-- The candidate-set computation of `clean_config_maps` (lines 126-159):
declared minus used, then the exemption filter, then the regex filter. -/
def unused_config_maps (compile : String → Option (String → Bool))
    (filter : Option String) (inverse_filter : Bool)
    (config_maps used_config_maps : Finset String) : Except Failure (Finset String) :=
  regex_filter_step compile filter inverse_filter
    ((config_maps \ used_config_maps).filter fun config_map =>
      EXEMPTIONS.contains config_map = false)

/-- One `get_config_map_references(fetched?)` step of `clean_config_maps`:
the `?` propagates a fetch error, after which the reference extraction may
panic on a resource without a pod spec. -/
def used_refs {K : Type} [HasPodSpec K]
    (fetched : Except Err (List K)) : Except Failure (Finset String) :=
  match get_resources fetched with
  | Except.error e => Except.error (Failure.fetch e)
  | Except.ok resources =>
    match get_config_map_references resources with
    | none => Except.error Failure.panicked
    | some s => Except.ok s

/-- Result of `clean_config_maps`: the computed candidate set (or the
failure that aborted the run) together with the names for which a delete
call was issued. -/
structure RunOut where
  result : Except Failure (Finset String)
  deletes_attempted : List String

/-- The `config_maps?` step of `clean_config_maps` (line 122): the fetch
error is propagated, a success yields the declared names. -/
def declared_config_maps (config_maps : Except Err (List ConfigMap)) :
    Except Failure (Finset String) :=
  match get_resources config_maps with
  | Except.error e => Except.error (Failure.fetch e)
  | Except.ok cms =>
    Except.ok (cms.map fun config_map => name_any config_map.metadata).toFinset

/-- Lines 93-165 of `clean_config_maps`: build the used set from the
seven workload fetches in source order (each `?` first, then extraction),
then `config_maps?`, then the candidate-set computation. -/
def reconcile
    (compile : String → Option (String → Bool))
    (config_maps : Except Err (List ConfigMap))
    (free_pods : Except Err (List Pod))
    (deployments : Except Err (List Deployment))
    (replicasets : Except Err (List ReplicaSet))
    (statefulsets : Except Err (List StatefulSet))
    (daemonsets : Except Err (List DaemonSet))
    (cronjobs : Except Err (List CronJob))
    (free_jobs : Except Err (List Job))
    (filter : Option String) (inverse_filter : Bool) :
    Except Failure (Finset String) := do
  let u1 ← used_refs free_pods
  let u2 ← used_refs deployments
  let u3 ← used_refs replicasets
  let u4 ← used_refs statefulsets
  let u5 ← used_refs daemonsets
  let u6 ← used_refs cronjobs
  let u7 ← used_refs free_jobs
  let declared ← declared_config_maps config_maps
  unused_config_maps compile filter inverse_filter declared
    (u1 ∪ u2 ∪ u3 ∪ u4 ∪ u5 ∪ u6 ∪ u7)

/-- `clean_config_maps` (lines 86-181).  The eight concurrent list calls
are passed in as their results; `compile` stands for `Regex::new` and
`delete` for the per-name delete call.  After `reconcile`, either the
dry-run branch is taken or the delete pass runs and its returned `Result`
is discarded (`let _ =`).  The `HashSet` iterates its elements in an
unspecified order; the embedding enumerates the candidate set in sorted
order as one representative. -/
def clean_config_maps
    (compile : String → Option (String → Bool))
    (delete : String → Except Err Unit)
    (config_maps : Except Err (List ConfigMap))
    (free_pods : Except Err (List Pod))
    (deployments : Except Err (List Deployment))
    (replicasets : Except Err (List ReplicaSet))
    (statefulsets : Except Err (List StatefulSet))
    (daemonsets : Except Err (List DaemonSet))
    (cronjobs : Except Err (List CronJob))
    (free_jobs : Except Err (List Job))
    (dry_run : Bool) (filter : Option String) (inverse_filter : Bool) : RunOut :=
  match reconcile compile config_maps free_pods deployments replicasets
      statefulsets daemonsets cronjobs free_jobs filter inverse_filter with
  | Except.error f => { result := Except.error f, deletes_attempted := [] }
  | Except.ok unused =>
    if dry_run then { result := Except.ok unused, deletes_attempted := [] }
    else
      { result := Except.ok unused,
        deletes_attempted := (delete_resources delete (unused.sort (· ≤ ·))).1 }

instance {ε α : Type} [DecidableEq ε] [DecidableEq α] : DecidableEq (Except ε α)
  | Except.error e, Except.error f =>
    if h : e = f then Decidable.isTrue (by rw [h]) else Decidable.isFalse (by simp [h])
  | Except.error _, Except.ok _ => Decidable.isFalse (by simp)
  | Except.ok _, Except.error _ => Decidable.isFalse (by simp)
  | Except.ok a, Except.ok b =>
    if h : a = b then Decidable.isTrue (by rw [h]) else Decidable.isFalse (by simp [h])

/-- A pod template references ConfigMap `n` through the env-var shape: some
container has an env var whose `value_from.config_map_key_ref.name` is `n`. -/
def RefViaEnvVar (ps : PodSpec) (n : String) : Prop :=
  ∃ container ∈ ps.containers, ∃ env_vars, container.env = some env_vars ∧
    ∃ env_var ∈ env_vars, ∃ vsource, env_var.value_from = some vsource ∧
      ∃ keyref, vsource.config_map_key_ref = some keyref ∧ keyref.name = some n

/-- A pod template references ConfigMap `n` through the env-from shape: some
container has a bulk env source whose `config_map_ref.name` is `n`. -/
def RefViaEnvFrom (ps : PodSpec) (n : String) : Prop :=
  ∃ container ∈ ps.containers, ∃ sources, container.env_from = some sources ∧
    ∃ source ∈ sources, ∃ cmref, source.config_map_ref = some cmref ∧
      cmref.name = some n

/-- A pod template references ConfigMap `n` through the direct-volume shape. -/
def RefViaVolume (ps : PodSpec) (n : String) : Prop :=
  ∃ volumes, ps.volumes = some volumes ∧ ∃ volume ∈ volumes,
    ∃ source, volume.config_map = some source ∧ source.name = some n

/-- A pod template references ConfigMap `n` through the projected-volume
shape: some volume has a projected source one of whose projections names
ConfigMap `n`. -/
def RefViaProjectedVolume (ps : PodSpec) (n : String) : Prop :=
  ∃ volumes, ps.volumes = some volumes ∧ ∃ volume ∈ volumes,
    ∃ projected, volume.projected = some projected ∧
      ∃ sources, projected.sources = some sources ∧
        ∃ projection ∈ sources, ∃ cmp, projection.config_map = some cmp ∧
          cmp.name = some n

/-- Some workload in one of the seven fetched collections carries the pod
template `ps`. -/
def FetchedPodSpec (free_pods : List Pod) (deployments : List Deployment)
    (replicasets : List ReplicaSet) (statefulsets : List StatefulSet)
    (daemonsets : List DaemonSet) (cronjobs : List CronJob)
    (free_jobs : List Job) (ps : PodSpec) : Prop :=
  (∃ w ∈ free_pods, HasPodSpec.pod_spec w = some ps) ∨
  (∃ w ∈ deployments, HasPodSpec.pod_spec w = some ps) ∨
  (∃ w ∈ replicasets, HasPodSpec.pod_spec w = some ps) ∨
  (∃ w ∈ statefulsets, HasPodSpec.pod_spec w = some ps) ∨
  (∃ w ∈ daemonsets, HasPodSpec.pod_spec w = some ps) ∨
  (∃ w ∈ cronjobs, HasPodSpec.pod_spec w = some ps) ∨
  (∃ w ∈ free_jobs, HasPodSpec.pod_spec w = some ps)

/-- The list call represented by `x` failed. -/
def IsFetchErr {K : Type} (x : Except Err (List K)) : Prop :=
  ∃ e, x = Except.error e

/-- Every workload in a successfully fetched collection carries its pod
template (so reference extraction cannot panic on it). -/
def SpecsPresent {K : Type} [HasPodSpec K] (x : Except Err (List K)) : Prop :=
  ∀ l, x = Except.ok l → ∀ w ∈ l, (HasPodSpec.pod_spec w).isSome = true

/-- Test fixture: a ConfigMap object with the given name. -/
def named_config_map (n : String) : ConfigMap :=
  { metadata := { name := some n, owner_references := none } }

/-- Test fixture: a Pod whose owner-reference list is present but empty. -/
def pod_with_empty_owner_list : Pod :=
  { metadata := { name := some "pod-a", owner_references := some [] },
    spec := some { containers := [], init_containers := none,
                   ephemeral_containers := none, volumes := none } }

/-- Test fixture: a Pod without an embedded pod spec. -/
def pod_without_spec : Pod :=
  { metadata := { name := some "pod-b", owner_references := none }, spec := none }

/-- Test fixture: a container referencing the ConfigMap `cm-init` through
both its env vars and its env-from sources. -/
def init_ref_container : Container :=
  { name := "ic",
    env := some [{ name := "E",
                   value_from := some { config_map_key_ref := some { name := some "cm-init" } } }],
    env_from := some [{ config_map_ref := some { name := some "cm-init" } }] }

/-- Test fixture: a Pod whose only reference to `cm-init` sits in an init
container; the top-level container list is empty. -/
def init_only_pod : Pod :=
  { metadata := { name := some "pod-init", owner_references := none },
    spec := some { containers := [],
                   init_containers := some [init_ref_container],
                   ephemeral_containers := none, volumes := none } }

/-- Test fixture: a pod template whose single container references the
ConfigMap `cm-used` through an env var. -/
def env_ref_pod_spec : PodSpec :=
  { containers :=
      [{ name := "c",
         env := some [{ name := "E",
                        value_from := some { config_map_key_ref := some { name := some "cm-used" } } }],
         env_from := none }],
    init_containers := none, ephemeral_containers := none, volumes := none }

/-- Test fixture: a Pod carrying `env_ref_pod_spec`. -/
def env_ref_pod : Pod :=
  { metadata := { name := some "pod-env", owner_references := none },
    spec := some env_ref_pod_spec }

/-! ## Helper lemmas -/

theorem except_bind_ok {α β : Type} {x : Except Failure α} {f : α → Except Failure β} {b : β}
    (h : (x >>= f) = Except.ok b) : ∃ a, x = Except.ok a ∧ f a = Except.ok b := by
  cases x with
  | error e => simp [Bind.bind, Except.bind] at h
  | ok a => exact ⟨a, rfl, by simpa [Bind.bind, Except.bind] using h⟩

theorem except_ok_bind {α β : Type} (a : α) (f : α → Except Failure β) :
    (Except.ok a >>= f) = f a := rfl

theorem except_error_bind {α β : Type} (f : Failure) (g : α → Except Failure β) :
    ((Except.error f : Except Failure α) >>= g) = Except.error f := rfl

theorem regex_filter_step_ok_subset {compile : String → Option (String → Bool)}
    {filter : Option String} {inverse_filter : Bool} {names s : Finset String}
    (h : regex_filter_step compile filter inverse_filter names = Except.ok s) :
    s ⊆ names := by
  unfold regex_filter_step at h
  cases filter with
  | none => simp at h; simp [h]
  | some regexp =>
    by_cases he : names = ∅
    · simp [he] at h; simp [h, he]
    · simp [he] at h
      cases hc : compile regexp with
      | none => rw [hc] at h; simp at h
      | some m =>
        rw [hc] at h; simp at h
        rw [← h]
        exact Finset.filter_subset _ _

theorem regex_filter_step_compile_ok {compile : String → Option (String → Bool)}
    {regexp : String} {m : String → Bool} (inverse_filter : Bool) (names : Finset String)
    (hc : compile regexp = some m) :
    regex_filter_step compile (some regexp) inverse_filter names =
      Except.ok (names.filter fun config_map =>
        (if inverse_filter then !(m config_map) else m config_map) = true) := by
  unfold regex_filter_step
  by_cases he : names = ∅
  · simp [he]
  · simp [he, hc]

theorem used_refs_ok {K : Type} [HasPodSpec K] {l : List K} {u : Finset String}
    (h : used_refs (Except.ok l) = Except.ok u) :
    get_config_map_references l = some u := by
  unfold used_refs get_resources at h
  simp at h
  cases hg : get_config_map_references l with
  | none => rw [hg] at h; simp at h
  | some s => rw [hg] at h; simp at h; rw [h]

theorem used_refs_fetch_error {K : Type} [HasPodSpec K] (e : Err) :
    used_refs (K := K) (Except.error e) = Except.error (Failure.fetch e) := rfl

theorem get_config_map_references_cons {K : Type} [HasPodSpec K] (a : K) (t : List K) :
    get_config_map_references (a :: t) =
      match HasPodSpec.pod_spec a, get_config_map_references t with
      | some ps, some s => some (extract_config_maps_from ps ∪ s)
      | _, _ => none := rfl

theorem subset_of_get_config_map_references {K : Type} [HasPodSpec K]
    {l : List K} {w : K} {ps : PodSpec} {u : Finset String}
    (hw : w ∈ l) (hps : HasPodSpec.pod_spec w = some ps)
    (hu : get_config_map_references l = some u) :
    extract_config_maps_from ps ⊆ u := by
  induction l generalizing u with
  | nil => cases hw
  | cons a t ih =>
    rw [get_config_map_references_cons] at hu
    cases ha : HasPodSpec.pod_spec a with
    | none => rw [ha] at hu; simp at hu
    | some psa =>
      rw [ha] at hu
      cases ht : get_config_map_references t with
      | none => rw [ht] at hu; simp at hu
      | some s =>
        rw [ht] at hu
        simp at hu
        rw [← hu]
        rcases List.mem_cons.mp hw with hwa | hwt
        · rw [hwa] at hps; rw [hps] at ha; cases ha
          exact Finset.subset_union_left
        · exact (ih hwt ht).trans Finset.subset_union_right

theorem get_config_map_references_total {K : Type} [HasPodSpec K] {l : List K}
    (h : ∀ w ∈ l, (HasPodSpec.pod_spec w).isSome = true) :
    ∃ u, get_config_map_references l = some u := by
  induction l with
  | nil => exact ⟨∅, rfl⟩
  | cons a t ih =>
    obtain ⟨u, hu⟩ := ih fun w hw => h w (List.mem_cons_of_mem a hw)
    obtain ⟨ps, hps⟩ := Option.isSome_iff_exists.mp (h a (List.mem_cons_self a t))
    exact ⟨extract_config_maps_from ps ∪ u, by
      rw [get_config_map_references_cons, hps, hu]⟩

theorem reconcile_ok_inv
    {compile : String → Option (String → Bool)}
    {config_maps : Except Err (List ConfigMap)}
    {free_pods : Except Err (List Pod)}
    {deployments : Except Err (List Deployment)}
    {replicasets : Except Err (List ReplicaSet)}
    {statefulsets : Except Err (List StatefulSet)}
    {daemonsets : Except Err (List DaemonSet)}
    {cronjobs : Except Err (List CronJob)}
    {free_jobs : Except Err (List Job)}
    {filter : Option String} {inverse_filter : Bool} {s : Finset String}
    (h : reconcile compile config_maps free_pods deployments replicasets
      statefulsets daemonsets cronjobs free_jobs filter inverse_filter = Except.ok s) :
    ∃ declared used,
      unused_config_maps compile filter inverse_filter declared used = Except.ok s := by
  unfold reconcile at h
  obtain ⟨u1, h1, h⟩ := except_bind_ok h
  obtain ⟨u2, h2, h⟩ := except_bind_ok h
  obtain ⟨u3, h3, h⟩ := except_bind_ok h
  obtain ⟨u4, h4, h⟩ := except_bind_ok h
  obtain ⟨u5, h5, h⟩ := except_bind_ok h
  obtain ⟨u6, h6, h⟩ := except_bind_ok h
  obtain ⟨u7, h7, h⟩ := except_bind_ok h
  obtain ⟨declared, hd, h⟩ := except_bind_ok h
  exact ⟨declared, _, h⟩

theorem result_ok_of_reconcile
    {compile delete config_maps free_pods deployments replicasets statefulsets
      daemonsets cronjobs free_jobs dry_run filter inverse_filter s} :
    (clean_config_maps compile delete config_maps free_pods deployments replicasets
      statefulsets daemonsets cronjobs free_jobs dry_run filter inverse_filter).result =
        Except.ok s →
    reconcile compile config_maps free_pods deployments replicasets
      statefulsets daemonsets cronjobs free_jobs filter inverse_filter = Except.ok s := by
  intro h
  unfold clean_config_maps at h
  cases hr : reconcile compile config_maps free_pods deployments replicasets
      statefulsets daemonsets cronjobs free_jobs filter inverse_filter with
  | error f => rw [hr] at h; simp at h
  | ok u =>
    rw [hr] at h
    cases dry_run <;> simp at h <;> rw [h]

theorem reconcile_ok_strong
    {compile : String → Option (String → Bool)}
    {config_maps : Except Err (List ConfigMap)}
    {free_pods : Except Err (List Pod)}
    {deployments : Except Err (List Deployment)}
    {replicasets : Except Err (List ReplicaSet)}
    {statefulsets : Except Err (List StatefulSet)}
    {daemonsets : Except Err (List DaemonSet)}
    {cronjobs : Except Err (List CronJob)}
    {free_jobs : Except Err (List Job)}
    {filter : Option String} {inverse_filter : Bool} {s : Finset String}
    (h : reconcile compile config_maps free_pods deployments replicasets
      statefulsets daemonsets cronjobs free_jobs filter inverse_filter = Except.ok s) :
    ∃ u1 u2 u3 u4 u5 u6 u7 declared,
      used_refs free_pods = Except.ok u1 ∧
      used_refs deployments = Except.ok u2 ∧
      used_refs replicasets = Except.ok u3 ∧
      used_refs statefulsets = Except.ok u4 ∧
      used_refs daemonsets = Except.ok u5 ∧
      used_refs cronjobs = Except.ok u6 ∧
      used_refs free_jobs = Except.ok u7 ∧
      declared_config_maps config_maps = Except.ok declared ∧
      unused_config_maps compile filter inverse_filter declared
        (u1 ∪ u2 ∪ u3 ∪ u4 ∪ u5 ∪ u6 ∪ u7) = Except.ok s := by
  unfold reconcile at h
  obtain ⟨u1, h1, h⟩ := except_bind_ok h
  obtain ⟨u2, h2, h⟩ := except_bind_ok h
  obtain ⟨u3, h3, h⟩ := except_bind_ok h
  obtain ⟨u4, h4, h⟩ := except_bind_ok h
  obtain ⟨u5, h5, h⟩ := except_bind_ok h
  obtain ⟨u6, h6, h⟩ := except_bind_ok h
  obtain ⟨u7, h7, h⟩ := except_bind_ok h
  obtain ⟨declared, hd, h⟩ := except_bind_ok h
  exact ⟨u1, u2, u3, u4, u5, u6, u7, declared, h1, h2, h3, h4, h5, h6, h7, hd, h⟩

theorem mem_extract_of_env_var {ps : PodSpec} {n : String} (h : RefViaEnvVar ps n) :
    n ∈ extract_config_maps_from_env_vars ps := by
  obtain ⟨c, hc, evs, henv, ev, hev, vs, hvf, kr, hkr, hname⟩ := h
  unfold extract_config_maps_from_env_vars
  refine List.mem_toFinset.mpr ?_
  refine List.mem_map.mpr ⟨(c.name, ev.name, n), ?_, rfl⟩
  refine List.mem_filterMap.mpr ⟨(c.name, ev), ?_, by simp [hvf, hkr, hname]⟩
  refine List.mem_flatMap.mpr ⟨(c.name, evs), ?_, List.mem_map.mpr ⟨ev, hev, rfl⟩⟩
  exact List.mem_filterMap.mpr ⟨c, hc, by simp [henv]⟩

theorem mem_extract_of_env_from {ps : PodSpec} {n : String} (h : RefViaEnvFrom ps n) :
    n ∈ extract_config_maps_from_env_from ps := by
  obtain ⟨c, hc, srcs, hef, src, hsrc, cmref, hcm, hname⟩ := h
  unfold extract_config_maps_from_env_from
  refine List.mem_toFinset.mpr ?_
  refine List.mem_map.mpr ⟨(c.name, n), ?_, rfl⟩
  refine List.mem_filterMap.mpr ⟨(c.name, src), ?_, by simp [hcm, hname]⟩
  refine List.mem_flatMap.mpr ⟨(c.name, srcs), ?_, List.mem_map.mpr ⟨src, hsrc, rfl⟩⟩
  exact List.mem_filterMap.mpr ⟨c, hc, by simp [hef]⟩

theorem mem_extract_of_volume {ps : PodSpec} {n : String} (h : RefViaVolume ps n) :
    n ∈ extract_config_maps_from_volumes ps := by
  obtain ⟨vols, hvols, vol, hvol, src, hsrc, hname⟩ := h
  unfold extract_config_maps_from_volumes
  rw [hvols]
  refine List.mem_toFinset.mpr ?_
  refine List.mem_map.mpr ⟨(vol.name, n), ?_, rfl⟩
  exact List.mem_filterMap.mpr ⟨vol, hvol, by simp [hsrc, hname]⟩

theorem mem_extract_of_projected_volume {ps : PodSpec} {n : String}
    (h : RefViaProjectedVolume ps n) :
    n ∈ extract_config_maps_from_projected_volumes ps := by
  obtain ⟨vols, hvols, vol, hvol, proj, hproj, srcs, hsrcs, projection, hpr, cmp, hcmp, hname⟩ := h
  unfold extract_config_maps_from_projected_volumes
  rw [hvols]
  refine List.mem_toFinset.mpr ?_
  refine List.mem_map.mpr ⟨(vol.name, n), ?_, rfl⟩
  refine List.mem_flatMap.mpr ⟨(vol.name, srcs), ?_, ?_⟩
  · exact List.mem_filterMap.mpr ⟨vol, hvol, by simp [hproj, hsrcs]⟩
  · exact List.mem_filterMap.mpr ⟨projection, hpr, by simp [hcmp, hname]⟩

theorem mem_extract_config_maps_from {ps : PodSpec} {n : String}
    (h : RefViaEnvVar ps n ∨ RefViaEnvFrom ps n ∨ RefViaVolume ps n ∨
      RefViaProjectedVolume ps n) :
    n ∈ extract_config_maps_from ps := by
  unfold extract_config_maps_from
  simp only [Finset.mem_union]
  rcases h with h | h | h | h
  · exact Or.inl (Or.inl (Or.inl (mem_extract_of_env_var h)))
  · exact Or.inl (Or.inl (Or.inr (mem_extract_of_env_from h)))
  · exact Or.inl (Or.inr (mem_extract_of_volume h))
  · exact Or.inr (mem_extract_of_projected_volume h)

theorem used_refs_total {K : Type} [HasPodSpec K] {l : List K}
    (h : ∀ w ∈ l, (HasPodSpec.pod_spec w).isSome = true) :
    ∃ u, used_refs (Except.ok l) = Except.ok u := by
  obtain ⟨u, hu⟩ := get_config_map_references_total h
  exact ⟨u, by unfold used_refs get_resources; simp [hu]⟩

theorem declared_config_maps_error (e : Err) :
    declared_config_maps (Except.error e) = Except.error (Failure.fetch e) := rfl

theorem specs_present_of_error {K : Type} [HasPodSpec K] (e : Err) :
    SpecsPresent (K := K) (Except.error e) := by
  intro l hl
  cases hl

theorem specs_present_of_nil {K : Type} [HasPodSpec K] :
    SpecsPresent (K := K) (Except.ok []) := by
  intro l hl w hw
  cases hl
  cases hw

/-! ## Claim theorems -/

/-- C1: for every declared set, used set, filter pattern and inverse flag,
the candidate set computed by `clean_config_maps` equals declared minus
used minus the exemption set, then filtered; a name is a candidate iff it
is declared, not used, not exempted, and not excluded by the filter
(`inverse_filter = false` keeps exactly the matching names,
`inverse_filter = true` keeps exactly the non-matching names). -/
theorem candidate_set_membership
    (compile : String → Option (String → Bool)) (regexp : String) (m : String → Bool)
    (inverse_filter : Bool) (declared used : Finset String)
    (hc : compile regexp = some m) :
    ∃ s, unused_config_maps compile (some regexp) inverse_filter declared used = Except.ok s ∧
      ∀ n, n ∈ s ↔ n ∈ declared ∧ n ∉ used ∧ n ∉ EXEMPTIONS ∧
        (if inverse_filter then m n = false else m n = true) := by
  unfold unused_config_maps
  rw [regex_filter_step_compile_ok inverse_filter _ hc]
  refine ⟨_, rfl, fun n => ?_⟩
  rw [Finset.mem_filter, Finset.mem_filter, Finset.mem_sdiff]
  cases inverse_filter <;> simp [and_assoc, EXEMPTIONS]

/-- C1 witness: a concrete filtered run. -/
theorem candidate_set_membership_witness :
    ∃ s, unused_config_maps (fun _ => some fun n => n == "keep-me") (some "keep")
        false {"keep-me", "other"} {"other"} = Except.ok s ∧
      ∀ n, n ∈ s ↔ n ∈ ({"keep-me", "other"} : Finset String) ∧
        n ∉ ({"other"} : Finset String) ∧ n ∉ EXEMPTIONS ∧
        (if false then (n == "keep-me") = false else (n == "keep-me") = true) :=
  candidate_set_membership (fun _ => some fun n => n == "keep-me") "keep"
    (fun n => n == "keep-me") false {"keep-me", "other"} {"other"} rfl

/-- C2: a ConfigMap referenced at least once through any of the four
reference shapes (env var, env-from, direct volume, projected volume) by
any fetched workload's pod template is in the used set, hence excluded
from the candidate set of a successful run. -/
theorem referenced_config_map_not_deleted
    {compile : String → Option (String → Bool)} {delete : String → Except Err Unit}
    {config_maps : Except Err (List ConfigMap)}
    {free_pods : List Pod} {deployments : List Deployment}
    {replicasets : List ReplicaSet} {statefulsets : List StatefulSet}
    {daemonsets : List DaemonSet} {cronjobs : List CronJob} {free_jobs : List Job}
    {dry_run : Bool} {filter : Option String} {inverse_filter : Bool}
    {ps : PodSpec} {n : String} {s : Finset String}
    (hfetch : FetchedPodSpec free_pods deployments replicasets statefulsets
      daemonsets cronjobs free_jobs ps)
    (href : RefViaEnvVar ps n ∨ RefViaEnvFrom ps n ∨ RefViaVolume ps n ∨
      RefViaProjectedVolume ps n)
    (hok : (clean_config_maps compile delete config_maps (Except.ok free_pods)
      (Except.ok deployments) (Except.ok replicasets) (Except.ok statefulsets)
      (Except.ok daemonsets) (Except.ok cronjobs) (Except.ok free_jobs)
      dry_run filter inverse_filter).result = Except.ok s) :
    n ∉ s := by
  obtain ⟨u1, u2, u3, u4, u5, u6, u7, declared, h1, h2, h3, h4, h5, h6, h7, hd, hu⟩ :=
    reconcile_ok_strong (result_ok_of_reconcile hok)
  have hex := mem_extract_config_maps_from href
  have hused : n ∈ u1 ∪ u2 ∪ u3 ∪ u4 ∪ u5 ∪ u6 ∪ u7 := by
    simp only [Finset.mem_union]
    rcases hfetch with ⟨w, hw, hps⟩ | ⟨w, hw, hps⟩ | ⟨w, hw, hps⟩ | ⟨w, hw, hps⟩ |
      ⟨w, hw, hps⟩ | ⟨w, hw, hps⟩ | ⟨w, hw, hps⟩
    · exact Or.inl (Or.inl (Or.inl (Or.inl (Or.inl (Or.inl
        (subset_of_get_config_map_references hw hps (used_refs_ok h1) hex))))))
    · exact Or.inl (Or.inl (Or.inl (Or.inl (Or.inl (Or.inr
        (subset_of_get_config_map_references hw hps (used_refs_ok h2) hex))))))
    · exact Or.inl (Or.inl (Or.inl (Or.inl (Or.inr
        (subset_of_get_config_map_references hw hps (used_refs_ok h3) hex)))))
    · exact Or.inl (Or.inl (Or.inl (Or.inr
        (subset_of_get_config_map_references hw hps (used_refs_ok h4) hex))))
    · exact Or.inl (Or.inl (Or.inr
        (subset_of_get_config_map_references hw hps (used_refs_ok h5) hex)))
    · exact Or.inl (Or.inr
        (subset_of_get_config_map_references hw hps (used_refs_ok h6) hex))
    · exact Or.inr (subset_of_get_config_map_references hw hps (used_refs_ok h7) hex)
  intro hmem
  unfold unused_config_maps at hu
  have hsub := regex_filter_step_ok_subset hu hmem
  rw [Finset.mem_filter, Finset.mem_sdiff] at hsub
  exact hsub.1.2 hused

/-- C3: `kube-root-ca.crt` is never in the candidate set of a successful
run, for every input and regardless of filter direction. -/
theorem exemption_never_deleted
    {compile delete config_maps free_pods deployments replicasets statefulsets
      daemonsets cronjobs free_jobs dry_run filter inverse_filter s}
    (h : (clean_config_maps compile delete config_maps free_pods deployments replicasets
      statefulsets daemonsets cronjobs free_jobs dry_run filter inverse_filter).result =
        Except.ok s) :
    "kube-root-ca.crt" ∉ s := by
  obtain ⟨declared, used, hu⟩ := reconcile_ok_inv (result_ok_of_reconcile h)
  unfold unused_config_maps at hu
  intro hmem
  have := regex_filter_step_ok_subset hu hmem
  rw [Finset.mem_filter] at this
  exact absurd this.2 (by decide)

/-- C4: with the dry-run flag set, no delete call is issued, for every
input (including runs with a non-empty candidate set). -/
theorem dry_run_issues_no_deletes
    (compile : String → Option (String → Bool)) (delete : String → Except Err Unit)
    (config_maps : Except Err (List ConfigMap)) (free_pods : Except Err (List Pod))
    (deployments : Except Err (List Deployment)) (replicasets : Except Err (List ReplicaSet))
    (statefulsets : Except Err (List StatefulSet)) (daemonsets : Except Err (List DaemonSet))
    (cronjobs : Except Err (List CronJob)) (free_jobs : Except Err (List Job))
    (filter : Option String) (inverse_filter : Bool) :
    (clean_config_maps compile delete config_maps free_pods deployments replicasets
      statefulsets daemonsets cronjobs free_jobs true filter inverse_filter).deletes_attempted = [] := by
  unfold clean_config_maps
  cases hr : reconcile compile config_maps free_pods deployments replicasets
      statefulsets daemonsets cronjobs free_jobs filter inverse_filter <;> simp

/-- C5 counterexample: the claim as stated is false.  With the Pod list
succeeding but containing a workload without a pod spec, and the
Deployment list failing with `boom`, the run panics on the missing spec
(clean.rs line 113 runs extraction on the pods before `deployments?` at
line 114): the fetch error `boom` is not propagated — it is masked by the
panic. -/
theorem fetch_error_masked_by_panic :
    (clean_config_maps (fun _ => none) (fun _ => Except.ok ())
      (Except.ok []) (Except.ok [pod_without_spec]) (Except.error "boom")
      (Except.ok []) (Except.ok []) (Except.ok []) (Except.ok []) (Except.ok [])
      false none false).result = Except.error Failure.panicked ∧
    (clean_config_maps (fun _ => none) (fun _ => Except.ok ())
      (Except.ok []) (Except.ok [pod_without_spec]) (Except.error "boom")
      (Except.ok []) (Except.ok []) (Except.ok []) (Except.ok []) (Except.ok [])
      false none false).result ≠ Except.error (Failure.fetch "boom") := by
  constructor <;> decide

/-- C5 amended: if any of the eight list calls returns an error and every
workload in the successfully fetched collections carries its pod template,
the run aborts with that error propagated as a fetch failure — the error
of one of the erring inputs, never replaced by an empty result — and no
delete call is issued.  The proviso is necessary: as the counterexample
above shows, a spec-less workload in an earlier successful fetch panics
the run before the fetch error is reached. -/
theorem fetch_error_aborts
    {compile : String → Option (String → Bool)} {delete : String → Except Err Unit}
    {config_maps : Except Err (List ConfigMap)}
    {free_pods : Except Err (List Pod)}
    {deployments : Except Err (List Deployment)}
    {replicasets : Except Err (List ReplicaSet)}
    {statefulsets : Except Err (List StatefulSet)}
    {daemonsets : Except Err (List DaemonSet)}
    {cronjobs : Except Err (List CronJob)}
    {free_jobs : Except Err (List Job)}
    {dry_run : Bool} {filter : Option String} {inverse_filter : Bool}
    (hsp1 : SpecsPresent free_pods) (hsp2 : SpecsPresent deployments)
    (hsp3 : SpecsPresent replicasets) (hsp4 : SpecsPresent statefulsets)
    (hsp5 : SpecsPresent daemonsets) (hsp6 : SpecsPresent cronjobs)
    (hsp7 : SpecsPresent free_jobs)
    (hany : IsFetchErr config_maps ∨ IsFetchErr free_pods ∨ IsFetchErr deployments ∨
      IsFetchErr replicasets ∨ IsFetchErr statefulsets ∨ IsFetchErr daemonsets ∨
      IsFetchErr cronjobs ∨ IsFetchErr free_jobs) :
    ∃ e,
      (clean_config_maps compile delete config_maps free_pods deployments replicasets
        statefulsets daemonsets cronjobs free_jobs dry_run filter inverse_filter).result =
          Except.error (Failure.fetch e) ∧
      (config_maps = Except.error e ∨ free_pods = Except.error e ∨
        deployments = Except.error e ∨ replicasets = Except.error e ∨
        statefulsets = Except.error e ∨ daemonsets = Except.error e ∨
        cronjobs = Except.error e ∨ free_jobs = Except.error e) ∧
      (clean_config_maps compile delete config_maps free_pods deployments replicasets
        statefulsets daemonsets cronjobs free_jobs dry_run filter inverse_filter).deletes_attempted = [] := by
  cases hfp : free_pods with
  | error e =>
    exact ⟨e,
      by simp [clean_config_maps, reconcile, used_refs_fetch_error, except_error_bind],
      Or.inr (Or.inl rfl),
      by simp [clean_config_maps, reconcile, used_refs_fetch_error, except_error_bind]⟩
  | ok l1 =>
  obtain ⟨u1, hu1⟩ := used_refs_total (hsp1 l1 hfp)
  cases hdep : deployments with
  | error e =>
    exact ⟨e,
      by simp [clean_config_maps, reconcile, hu1, except_ok_bind,
        used_refs_fetch_error, except_error_bind],
      Or.inr (Or.inr (Or.inl rfl)),
      by simp [clean_config_maps, reconcile, hu1, except_ok_bind,
        used_refs_fetch_error, except_error_bind]⟩
  | ok l2 =>
  obtain ⟨u2, hu2⟩ := used_refs_total (hsp2 l2 hdep)
  cases hrs : replicasets with
  | error e =>
    exact ⟨e,
      by simp [clean_config_maps, reconcile, hu1, hu2, except_ok_bind,
        used_refs_fetch_error, except_error_bind],
      Or.inr (Or.inr (Or.inr (Or.inl rfl))),
      by simp [clean_config_maps, reconcile, hu1, hu2, except_ok_bind,
        used_refs_fetch_error, except_error_bind]⟩
  | ok l3 =>
  obtain ⟨u3, hu3⟩ := used_refs_total (hsp3 l3 hrs)
  cases hss : statefulsets with
  | error e =>
    exact ⟨e,
      by simp [clean_config_maps, reconcile, hu1, hu2, hu3, except_ok_bind,
        used_refs_fetch_error, except_error_bind],
      Or.inr (Or.inr (Or.inr (Or.inr (Or.inl rfl)))),
      by simp [clean_config_maps, reconcile, hu1, hu2, hu3, except_ok_bind,
        used_refs_fetch_error, except_error_bind]⟩
  | ok l4 =>
  obtain ⟨u4, hu4⟩ := used_refs_total (hsp4 l4 hss)
  cases hds : daemonsets with
  | error e =>
    exact ⟨e,
      by simp [clean_config_maps, reconcile, hu1, hu2, hu3, hu4, except_ok_bind,
        used_refs_fetch_error, except_error_bind],
      Or.inr (Or.inr (Or.inr (Or.inr (Or.inr (Or.inl rfl))))),
      by simp [clean_config_maps, reconcile, hu1, hu2, hu3, hu4, except_ok_bind,
        used_refs_fetch_error, except_error_bind]⟩
  | ok l5 =>
  obtain ⟨u5, hu5⟩ := used_refs_total (hsp5 l5 hds)
  cases hcj : cronjobs with
  | error e =>
    exact ⟨e,
      by simp [clean_config_maps, reconcile, hu1, hu2, hu3, hu4, hu5, except_ok_bind,
        used_refs_fetch_error, except_error_bind],
      Or.inr (Or.inr (Or.inr (Or.inr (Or.inr (Or.inr (Or.inl rfl)))))),
      by simp [clean_config_maps, reconcile, hu1, hu2, hu3, hu4, hu5, except_ok_bind,
        used_refs_fetch_error, except_error_bind]⟩
  | ok l6 =>
  obtain ⟨u6, hu6⟩ := used_refs_total (hsp6 l6 hcj)
  cases hfj : free_jobs with
  | error e =>
    exact ⟨e,
      by simp [clean_config_maps, reconcile, hu1, hu2, hu3, hu4, hu5, hu6, except_ok_bind,
        used_refs_fetch_error, except_error_bind],
      Or.inr (Or.inr (Or.inr (Or.inr (Or.inr (Or.inr (Or.inr rfl)))))),
      by simp [clean_config_maps, reconcile, hu1, hu2, hu3, hu4, hu5, hu6, except_ok_bind,
        used_refs_fetch_error, except_error_bind]⟩
  | ok l7 =>
  obtain ⟨u7, hu7⟩ := used_refs_total (hsp7 l7 hfj)
  cases hcm : config_maps with
  | error e =>
    exact ⟨e,
      by simp [clean_config_maps, reconcile, hu1, hu2, hu3, hu4, hu5, hu6, hu7,
        except_ok_bind, declared_config_maps_error, except_error_bind],
      Or.inl rfl,
      by simp [clean_config_maps, reconcile, hu1, hu2, hu3, hu4, hu5, hu6, hu7,
        except_ok_bind, declared_config_maps_error, except_error_bind]⟩
  | ok lc =>
    exfalso
    rcases hany with ⟨e, he⟩ | ⟨e, he⟩ | ⟨e, he⟩ | ⟨e, he⟩ | ⟨e, he⟩ | ⟨e, he⟩ |
      ⟨e, he⟩ | ⟨e, he⟩
    · rw [hcm] at he; simp at he
    · rw [hfp] at he; simp at he
    · rw [hdep] at he; simp at he
    · rw [hrs] at he; simp at he
    · rw [hss] at he; simp at he
    · rw [hds] at he; simp at he
    · rw [hcj] at he; simp at he
    · rw [hfj] at he; simp at he


/-- C2 witness: a Deployment-free run with one Pod referencing `cm-used`
through an env var; `cm-used` is kept, `stale` is the only candidate. -/
theorem referenced_config_map_not_deleted_witness :
    (clean_config_maps (fun _ => none) (fun _ => Except.ok ())
      (Except.ok [named_config_map "cm-used", named_config_map "stale"])
      (Except.ok [env_ref_pod]) (Except.ok []) (Except.ok []) (Except.ok [])
      (Except.ok []) (Except.ok []) (Except.ok []) false none false).result =
        Except.ok {"stale"} ∧
    "cm-used" ∉ ({"stale"} : Finset String) :=
  ⟨by decide,
   @referenced_config_map_not_deleted
     (fun _ => none) (fun _ => Except.ok ())
     (Except.ok [named_config_map "cm-used", named_config_map "stale"])
     [env_ref_pod] [] [] [] [] [] []
     false none false env_ref_pod_spec "cm-used" {"stale"}
     (Or.inl ⟨env_ref_pod, by decide, rfl⟩)
     (Or.inl (by simp [RefViaEnvVar, env_ref_pod_spec]))
     (by decide)⟩

/-- C3 witness: a run whose declared set holds `kube-root-ca.crt` and
`junk`; only `junk` is a candidate. -/
theorem exemption_never_deleted_witness :
    "kube-root-ca.crt" ∉ ({"junk"} : Finset String) :=
  exemption_never_deleted
    (show (clean_config_maps (fun _ => none) (fun _ => Except.ok ())
      (Except.ok [named_config_map "kube-root-ca.crt", named_config_map "junk"])
      (Except.ok []) (Except.ok []) (Except.ok []) (Except.ok [])
      (Except.ok []) (Except.ok []) (Except.ok []) false none false).result =
        Except.ok {"junk"} by decide)

/-- C5 witness: a run whose Pod list call fails with `boom`. -/
theorem fetch_error_aborts_witness :
    ∃ e,
      (clean_config_maps (fun _ => none) (fun _ => Except.ok ())
        (Except.ok []) (Except.error "boom") (Except.ok []) (Except.ok [])
        (Except.ok []) (Except.ok []) (Except.ok []) (Except.ok [])
        false none false).result = Except.error (Failure.fetch e) ∧
      ((Except.ok [] : Except Err (List ConfigMap)) = Except.error e ∨
        (Except.error "boom" : Except Err (List Pod)) = Except.error e ∨
        (Except.ok [] : Except Err (List Deployment)) = Except.error e ∨
        (Except.ok [] : Except Err (List ReplicaSet)) = Except.error e ∨
        (Except.ok [] : Except Err (List StatefulSet)) = Except.error e ∨
        (Except.ok [] : Except Err (List DaemonSet)) = Except.error e ∨
        (Except.ok [] : Except Err (List CronJob)) = Except.error e ∨
        (Except.ok [] : Except Err (List Job)) = Except.error e) ∧
      (clean_config_maps (fun _ => none) (fun _ => Except.ok ())
        (Except.ok []) (Except.error "boom") (Except.ok []) (Except.ok [])
        (Except.ok []) (Except.ok []) (Except.ok []) (Except.ok [])
        false none false).deletes_attempted = [] :=
  fetch_error_aborts (specs_present_of_error "boom") specs_present_of_nil
    specs_present_of_nil specs_present_of_nil specs_present_of_nil
    specs_present_of_nil specs_present_of_nil
    (Or.inr (Or.inl ⟨"boom", rfl⟩))

/-- C6: contrary to the MissingSpec contract, a fetched workload without
an embedded pod spec makes the run panic (the `unwrap()` inside
`HasPodSpec::pod_spec`) instead of contributing zero references. -/
theorem missing_spec_panics_run :
    HasPodSpec.pod_spec pod_without_spec = none ∧
    (clean_config_maps (fun _ => none) (fun _ => Except.ok ())
      (Except.ok []) (Except.ok [pod_without_spec]) (Except.ok []) (Except.ok [])
      (Except.ok []) (Except.ok []) (Except.ok []) (Except.ok [])
      false none false).result = Except.error Failure.panicked := by
  constructor <;> rfl

/-- C7: contrary to the validate-at-start contract, an invalid filter
pattern is compiled inside the per-item filter closure: with no candidate
reaching the filter the run succeeds without surfacing any configuration
error, and with one candidate it panics during per-item processing. -/
theorem invalid_filter_compiled_per_item :
    ((clean_config_maps (fun p => if p = "(" then none else some fun _ => true)
      (fun _ => Except.ok ())
      (Except.ok []) (Except.ok []) (Except.ok []) (Except.ok [])
      (Except.ok []) (Except.ok []) (Except.ok []) (Except.ok [])
      false (some "(") false).result = Except.ok ∅) ∧
    ((clean_config_maps (fun p => if p = "(" then none else some fun _ => true)
      (fun _ => Except.ok ())
      (Except.ok [named_config_map "stale"]) (Except.ok []) (Except.ok []) (Except.ok [])
      (Except.ok []) (Except.ok []) (Except.ok []) (Except.ok [])
      false (some "(") false).result = Except.error Failure.panicked) := by
  constructor <;> decide

/-- C8 counterexample: when the delete of `cm-a` fails, `cm-b` is never
attempted — the pass returns early with the error, refuting the claim
that every target after a failed one is still attempted. -/
theorem delete_failure_skips_rest :
    delete_resources (fun t => if t = "cm-a" then Except.error "denied" else Except.ok ())
      ["cm-a", "cm-b"] = (["cm-a"], Except.error "denied") := by
  decide

/-- C8 amended: a delete failure aborts the remaining deletions (the pass
returns early with the first error); the caller of the pass discards the
returned error, so the run's result never depends on the delete outcomes
and the run does not crash. -/
theorem delete_failure_aborts_pass
    (delete : String → Except Err Unit) (t : String) (ts : List String) (e : Err)
    (h : delete t = Except.error e) :
    delete_resources delete (t :: ts) = ([t], Except.error e) ∧
    ∀ (compile : String → Option (String → Bool)) (d1 d2 : String → Except Err Unit)
      (config_maps : Except Err (List ConfigMap)) (free_pods : Except Err (List Pod))
      (deployments : Except Err (List Deployment)) (replicasets : Except Err (List ReplicaSet))
      (statefulsets : Except Err (List StatefulSet)) (daemonsets : Except Err (List DaemonSet))
      (cronjobs : Except Err (List CronJob)) (free_jobs : Except Err (List Job))
      (dry_run : Bool) (filter : Option String) (inverse_filter : Bool),
      (clean_config_maps compile d1 config_maps free_pods deployments replicasets
        statefulsets daemonsets cronjobs free_jobs dry_run filter inverse_filter).result =
      (clean_config_maps compile d2 config_maps free_pods deployments replicasets
        statefulsets daemonsets cronjobs free_jobs dry_run filter inverse_filter).result := by
  constructor
  · simp [delete_resources, h]
  · intro compile d1 d2 config_maps free_pods deployments replicasets statefulsets
      daemonsets cronjobs free_jobs dry_run filter inverse_filter
    unfold clean_config_maps
    cases hr : reconcile compile config_maps free_pods deployments replicasets
        statefulsets daemonsets cronjobs free_jobs filter inverse_filter <;>
      cases dry_run <;> simp

/-- C8 amended witness: a concrete failing first delete. -/
theorem delete_failure_aborts_pass_witness :
    delete_resources (fun t => if t = "x" then Except.error "e1" else Except.ok ())
      ("x" :: ["y"]) = (["x"], Except.error "e1") ∧
    ∀ (compile : String → Option (String → Bool)) (d1 d2 : String → Except Err Unit)
      (config_maps : Except Err (List ConfigMap)) (free_pods : Except Err (List Pod))
      (deployments : Except Err (List Deployment)) (replicasets : Except Err (List ReplicaSet))
      (statefulsets : Except Err (List StatefulSet)) (daemonsets : Except Err (List DaemonSet))
      (cronjobs : Except Err (List CronJob)) (free_jobs : Except Err (List Job))
      (dry_run : Bool) (filter : Option String) (inverse_filter : Bool),
      (clean_config_maps compile d1 config_maps free_pods deployments replicasets
        statefulsets daemonsets cronjobs free_jobs dry_run filter inverse_filter).result =
      (clean_config_maps compile d2 config_maps free_pods deployments replicasets
        statefulsets daemonsets cronjobs free_jobs dry_run filter inverse_filter).result :=
  delete_failure_aborts_pass (fun t => if t = "x" then Except.error "e1" else Except.ok ())
    "x" ["y"] "e1" (by decide)

/-- C9 counterexample: a Pod whose owner-reference list is present but
holds zero entries is dropped by `get_ownerless_resources`, refuting the
claim that an object with an empty owner-reference list is kept. -/
theorem empty_owner_list_not_kept :
    pod_with_empty_owner_list.metadata.owner_references = some [] ∧
    get_ownerless_resources (fun pod : Pod => pod.metadata)
      (Except.ok [pod_with_empty_owner_list]) = Except.ok [] := by
  constructor <;> rfl

/-- C9 amended: `get_ownerless_resources` keeps exactly the fetched
objects whose owner-reference field is absent (`None`); an object with a
present owner-reference list, even an empty one, is filtered out. -/
theorem ownerless_keeps_exactly_absent_owner_field {K : Type} (metadata : K → ObjectMeta)
    {l r : List K} (w : K)
    (h : get_ownerless_resources metadata (Except.ok l) = Except.ok r) :
    w ∈ r ↔ w ∈ l ∧ (metadata w).owner_references = none := by
  unfold get_ownerless_resources get_resources at h
  simp only [Bind.bind, Except.bind, pure, Except.pure, Except.ok.injEq] at h
  rw [← h]
  simp [List.mem_filter, Option.isNone_iff_eq_none]

/-- C9 amended witness: a Pod with an absent owner field is kept, one
with a present-but-empty owner list is not. -/
theorem ownerless_keeps_exactly_absent_owner_field_witness :
    pod_without_spec ∈ ([pod_without_spec] : List Pod) ∧
    (pod_without_spec ∈ ([pod_without_spec] : List Pod) ↔
      pod_without_spec ∈ ([pod_without_spec, pod_with_empty_owner_list] : List Pod) ∧
      (pod_without_spec.metadata).owner_references = none) :=
  ⟨by decide, ownerless_keeps_exactly_absent_owner_field (fun pod : Pod => pod.metadata)
    pod_without_spec (by decide)⟩

/-- C10: the env-var and env-from extraction passes read only the
top-level container list — their result is invariant under any change to
`init_containers` and `ephemeral_containers` — so a ConfigMap referenced
only from an init container's environment lands in the candidate set. -/
theorem init_container_refs_ignored :
    (∀ (ps : PodSpec) (ics ecs : Option (List Container)),
      extract_config_maps_from_env_vars
        { containers := ps.containers, init_containers := ics,
          ephemeral_containers := ecs, volumes := ps.volumes } =
        extract_config_maps_from_env_vars ps ∧
      extract_config_maps_from_env_from
        { containers := ps.containers, init_containers := ics,
          ephemeral_containers := ecs, volumes := ps.volumes } =
        extract_config_maps_from_env_from ps) ∧
    (clean_config_maps (fun _ => none) (fun _ => Except.ok ())
      (Except.ok [named_config_map "cm-init"]) (Except.ok [init_only_pod])
      (Except.ok []) (Except.ok []) (Except.ok []) (Except.ok []) (Except.ok [])
      (Except.ok []) false none false).result = Except.ok {"cm-init"} := by
  refine ⟨fun ps ics ecs => ⟨rfl, rfl⟩, ?_⟩
  decide

end Kubeclean
